import Mathlib

/-!
Shallow embedding of the MindMate emotion / risk / response pipeline
(src/emotions.py, src/responses.py, src/app.py) and proofs of the spec's
claims about it.

Conventions of the embedding:
- Python strings are Lean `String`s; `str.lower()` is `pyLower` (per-character
  lowering), `str.split()` is `pySplit`, and the Python substring test
  `pat in s` is `strContains s pat`, an executable check on the character
  lists.
- Python `float` arithmetic (confidence values, the `1.5` multiplier) is
  modelled with exact rationals (`Rat`).
- `random.choice` is modelled by an explicit draw: an arbitrary natural
  number index, taken modulo the pool size, so every possible execution of
  the Python code corresponds to some draw and vice versa.
- Data loaded from CSV files at startup (GoEmotions corpus, control /
  condition datasets) is passed as an explicit parameter: `none` models a
  missing file, `some rows` a loaded table (rows restricted to the columns
  the code reads).
- The Hugging Face HTTP call is modelled by an `HFCall` value describing
  the outcome the code branches on (missing key, raised exception,
  HTTP status and JSON payload).
-/

namespace Mindmate

/-- Initial-segment test on character lists: `isPrefixOfB p t` is `true`
exactly when `p` is a prefix of `t`. -/
def isPrefixOfB : List Char → List Char → Bool
  | [], _ => true
  | _ :: _, [] => false
  | a :: ps, b :: ts => a == b && isPrefixOfB ps ts

/-- Substring test on character lists: `containsSub p t` is `true` exactly
when `p` occurs contiguously inside `t`. -/
def containsSub (p : List Char) : List Char → Bool
  | [] => p.isEmpty
  | c :: cs => isPrefixOfB p (c :: cs) || containsSub p cs

/-- Python `pat in s` (substring containment). -/
def strContains (s pat : String) : Bool := containsSub pat.data s.data

/-- Final-segment test on character lists. -/
def isSuffixOfB (p t : List Char) : Bool := isPrefixOfB p.reverse t.reverse

/-- Python `s.endswith(pat)`: used to state that a reply ends with a given
closing sentence. -/
def strEndsWith (s pat : String) : Bool := isSuffixOfB pat.data s.data

/-- Python `s.lower()`, applied character by character. -/
def pyLower (s : String) : String := ⟨s.data.map Char.toLower⟩

/-- Helper for `pySplit`: walk the characters, `cur` holding the reversed
current word. -/
def pySplitAux : List Char → List Char → List String
  | [], cur => if cur.isEmpty then [] else [⟨cur.reverse⟩]
  | c :: cs, cur =>
    if c.isWhitespace then
      if cur.isEmpty then pySplitAux cs [] else ⟨cur.reverse⟩ :: pySplitAux cs []
    else pySplitAux cs (c :: cur)

/-- Python `s.split()`: split on whitespace runs, dropping empty pieces. -/
def pySplit (s : String) : List String := pySplitAux s.data []

/-- Python `set(s.lower().split())`, kept as a duplicate-free list; the code
only ever takes sizes of intersections of such sets, so the order is
irrelevant. -/
def wordSet (s : String) : List String := (pySplit (pyLower s)).dedup

/-- Python `len(a & b)` for word sets (`a` duplicate-free). -/
def overlapCount (a b : List String) : Nat :=
  (a.filter (fun w => b.contains w)).length

/-- A classification result as the dictionaries built in src/emotions.py:
emotion label, confidence score, and the method tag (empty when the source
dictionary carries no `method` key, as in the Hugging Face branch). -/
structure EmotionResult where
  emotion : String
  confidence : Rat
  method : String
deriving DecidableEq

/-- Outcome of the Hugging Face HTTP call that
`detect_emotion_huggingface` (src/emotions.py, lines 48-98) branches on:
`noApiKey` models the missing `HUGGING_FACE_API_KEY`, `requestFailure` a
raised exception (timeout, connection error, malformed JSON), and
`httpStatus code body` a completed request whose JSON body parsed as a list
of lists of (label, score) pairs. -/
inductive HFCall where
  | noApiKey : HFCall
  | requestFailure : HFCall
  | httpStatus (code : Nat) (body : List (List (String × Rat))) : HFCall
deriving DecidableEq

/-- Python `max(xs, key=lambda x: x['score'])` over (label, score) pairs:
the first element attaining the maximal score wins, `none` on the empty
list (where Python raises `ValueError`). -/
def maxByScore : List (String × Rat) → Option (String × Rat)
  | [] => none
  | x :: xs => some (xs.foldl (fun best y => if y.2 > best.2 then y else best) x)

/-- src/emotions.py, `detect_emotion_huggingface` (lines 48-98): `none`
models the Python `None` returned on a missing key, a raised exception, a
non-200 status, an empty result list (the code falls off the end of the
function), or an empty `results[0]` (Python `max` raises, the `except`
returns `None`). -/
def detect_emotion_huggingface (call : HFCall) : Option EmotionResult :=
  match call with
  | .noApiKey => none
  | .requestFailure => none
  | .httpStatus code body =>
    if code = 200 then
      match body with
      | [] => none
      | first :: _ =>
        match maxByScore first with
        | none => none
        | some top => some ⟨top.1, top.2, ""⟩
    else none

/-- src/emotions.py, lines 117-141: the keyword lexicon, in the fixed
iteration order of the Python dict. -/
def emotion_keywords : List (String × List String) :=
  [("severe_distress",
    ["suicide", "kill myself", "end it all", "want to die",
     "hopeless", "worthless", "no reason to live", "give up on life"]),
   ("sadness",
    ["sad", "depressed", "down", "unhappy", "crying", "tears",
     "lonely", "empty", "heartbroken", "miserable", "gloomy"]),
   ("anxiety",
    ["anxious", "worried", "nervous", "scared", "afraid", "panic",
     "stress", "overwhelmed", "terrified", "fear", "uneasy"]),
   ("anger",
    ["angry", "mad", "furious", "hate", "irritated", "frustrated",
     "annoyed", "rage", "pissed", "bitter", "resentful"]),
   ("joy",
    ["happy", "great", "excellent", "wonderful", "amazing", "fantastic",
     "joyful", "excited", "thrilled", "delighted", "cheerful", "good"]),
   ("neutral",
    ["okay", "fine", "alright", "normal", "average"])]

/-- src/emotions.py, lines 144-148: per-category keyword-occurrence counts,
keeping only categories with a positive score, in dict insertion order. -/
def emotionScores (text_lower : String) : List (String × Nat) :=
  ((emotion_keywords.map (fun p =>
      (p.1, (p.2.filter (fun k => strContains text_lower k)).length))).filter
    (fun p => p.2 > 0))

/-- Python `max(d, key=d.get)` over an insertion-ordered (key, count) dict:
the first key attaining the maximal count wins. -/
def maxByCount : List (String × Nat) → Option (String × Nat)
  | [] => none
  | x :: xs => some (xs.foldl (fun best y => if y.2 > best.2 then y else best) x)

/-- src/emotions.py, `detect_emotion_rule_based` (lines 101-171): keyword
matching over the lowered text; with no match, neutral with confidence 0.5;
otherwise the top-scoring category with confidence
`min(max_score / max(total_words * 0.3, 1), 0.95)`. -/
def detect_emotion_rule_based (text : String) : EmotionResult :=
  let text_lower := pyLower text
  match maxByCount (emotionScores text_lower) with
  | none => ⟨"neutral", 1/2, "rule_based"⟩
  | some best =>
    let total_words := (pySplit text_lower).length
    ⟨best.1,
     min ((best.2 : Rat) / max ((total_words : Rat) * (3/10)) 1) (95/100),
     "rule_based"⟩

/-- Result of `map_emotion_with_dataset`: the (possibly replaced) emotion
and the `enhanced` flag `detect_emotion` tests. -/
structure MapResult where
  emotion : String
  enhanced : Bool
deriving DecidableEq

/-- Python `emotion_counts[e] = emotion_counts.get(e, 0) + overlap` on an
insertion-ordered dict kept as an association list. -/
def bumpCount (counts : List (String × Nat)) (k : String) (v : Nat) :
    List (String × Nat) :=
  if counts.any (fun p => p.1 = k) then
    counts.map (fun p => if p.1 = k then (p.1, p.2 + v) else p)
  else counts ++ [(k, v)]

/-- src/emotions.py, lines 192-206: the `similar_entries` list built by
`map_emotion_with_dataset` — the (emotion, overlap) pairs of the first 1000
GoEmotions rows (each row a (text, emotion) pair) sharing at least one word
with the message. -/
def similarEntries (rows : List (String × String)) (text : String) :
    List (String × Nat) :=
  ((rows.take 1000).map
    (fun r => (r.2, overlapCount (wordSet text) (wordSet r.1)))).filter
    (fun e => e.2 > 0)

/-- src/emotions.py, `map_emotion_with_dataset` (lines 174-230): if any of
the first 1000 corpus rows shares a word with the message, the
overlap-weighted majority label replaces the detected emotion and
`enhanced` is set; the Python `similar_entries:` nonempty test and the dict
maximum are one `maxByCount` over the accumulated counts, which is `some`
exactly when `similar_entries` is nonempty. -/
def map_emotion_with_dataset (data : Option (List (String × String)))
    (text : String) (detected_emotion : String) : MapResult :=
  match data with
  | none => ⟨detected_emotion, false⟩
  | some rows =>
    let emotion_counts :=
      (similarEntries rows text).foldl (fun cs e => bumpCount cs e.1 e.2) []
    match maxByCount emotion_counts with
    | some best => ⟨best.1, true⟩
    | none => ⟨detected_emotion, false⟩

/-- src/emotions.py, `detect_emotion` (lines 233-264): Hugging Face first,
rule-based fallback when it returns `None`, then dataset enhancement when
the GoEmotions corpus is loaded; `result.update(enhanced_result)` replaces
the emotion label when `enhanced` is set. -/
def detect_emotion (call : HFCall) (goemotions : Option (List (String × String)))
    (text : String) : EmotionResult :=
  let result :=
    match detect_emotion_huggingface call with
    | some r => r
    | none => detect_emotion_rule_based text
  match goemotions with
  | none => result
  | some _ =>
    let enhanced_result := map_emotion_with_dataset goemotions text result.emotion
    if enhanced_result.enhanced then
      { result with emotion := enhanced_result.emotion }
    else result

/-- src/responses.py, lines 81-85. -/
def high_risk_keywords : List String :=
  ["suicide", "kill myself", "end it all", "want to die",
   "no reason to live", "better off dead", "harm myself",
   "can't go on", "give up on life"]

/-- src/responses.py, lines 88-92. -/
def medium_risk_keywords : List String :=
  ["hopeless", "worthless", "nobody cares", "hate myself",
   "failure", "useless", "burden", "can't do anything right",
   "everything is wrong", "nothing matters"]

/-- src/responses.py, lines 95-98. -/
def low_risk_keywords : List String :=
  ["sad", "depressed", "anxious", "worried", "lonely",
   "empty", "tired", "exhausted", "stressed"]

/-- The control / condition tables of src/responses.py
(`DEPRESSION_DATASETS`, loaded at import): `none` models a missing CSV
file, `some rows` the text column of a loaded one. The unused scores table
is omitted. -/
structure DepressionDatasets where
  control : Option (List String)
  condition : Option (List String)
deriving DecidableEq

/-- src/responses.py, `compare_with_depression_dataset` (lines 126-172):
summed word overlap of the message against the first 100 rows of each
table; returns 2 when the condition overlap exceeds 1.5 times the control
overlap, 1 when it merely exceeds it, else 0 (also when either table is
missing). -/
def compare_with_depression_dataset (ds : DepressionDatasets) (text : String) : Int :=
  match ds.condition, ds.control with
  | some condition_rows, some control_rows =>
    let words := wordSet text
    let condition_similarity : Nat :=
      ((condition_rows.take 100).map (fun t => overlapCount words (wordSet t))).sum
    let control_similarity : Nat :=
      ((control_rows.take 100).map (fun t => overlapCount words (wordSet t))).sum
    if (condition_similarity : Rat) > (control_similarity : Rat) * (3/2) then 2
    else if condition_similarity > control_similarity then 1
    else 0
  | _, _ => 0

/-- src/responses.py, `calculate_risk_score` (lines 64-122): high-risk
keywords give 3, medium-risk 2, the severe-distress emotion 3, a low-risk
keyword under sadness/anxiety 1; otherwise the dataset comparison (clamped
below by 0) when the condition table is loaded, else 0. A sadness/anxiety
message with no low-risk keyword falls through to the dataset comparison,
exactly as the Python `elif` with its inner `if` does. -/
def calculate_risk_score (ds : DepressionDatasets) (text : String)
    (emotion : String) : Int :=
  let text_lower := pyLower text
  if high_risk_keywords.any (fun k => strContains text_lower k) then 3
  else if medium_risk_keywords.any (fun k => strContains text_lower k) then 2
  else if emotion = "severe_distress" then 3
  else if (emotion = "sadness" ∨ emotion = "anxiety") ∧
      low_risk_keywords.any (fun k => strContains text_lower k) = true then 1
  else if ds.condition.isSome then
    max (compare_with_depression_dataset ds text) 0
  else 0

/-- src/app.py, chat() line 104:
`user_data['risk_score'] = min(user_data['risk_score'] + risk_increment, 10)`. -/
def updateRisk (risk_score increment : Int) : Int := min (risk_score + increment) 10

/-- Cumulative session risk after a sequence of (message, detected emotion)
turns, starting from the 0 a fresh session is created with (src/app.py,
lines 85-90 and 103-104). -/
def sessionRisk (ds : DepressionDatasets) (turns : List (String × String)) : Int :=
  turns.foldl (fun r turn => updateRisk r (calculate_risk_score ds turn.1 turn.2)) 0

/-- src/responses.py, lines 195-199. -/
def severe_distress_responses : List String :=
  ["I hear that you're going through an incredibly difficult time. Your feelings are valid, and you don't have to face this alone. 💙",
   "What you're experiencing sounds overwhelming, and I'm genuinely concerned. Please know that you deserve support and care.",
   "I want you to know that your life matters, even when it doesn't feel that way. These feelings can change, and help is available."]

/-- src/responses.py, lines 200-205. -/
def sadness_responses : List String :=
  ["I'm sorry you're feeling this way. It's okay to feel sad - your emotions are completely valid. 💙",
   "It sounds like you're going through a tough time. Remember, it's okay not to be okay sometimes.",
   "I hear you, and I want you to know that these feelings won't last forever. Take things one moment at a time.",
   "Sadness is a natural human emotion. Be gentle with yourself during this difficult time."]

/-- src/responses.py, lines 206-211. -/
def anxiety_responses : List String :=
  ["It sounds like you're feeling anxious. Take a deep breath with me - in for 4, hold for 4, out for 4. 🌊",
   "Anxiety can feel overwhelming, but you're not alone in this. Let's take things one step at a time.",
   "I understand you're worried. Sometimes it helps to focus on what you can control right now.",
   "Your anxiety is valid. Would it help to talk about what's worrying you?"]

/-- src/responses.py, lines 212-217. -/
def anger_responses : List String :=
  ["I can sense your frustration. It's okay to feel angry - it's a valid emotion. 🌟",
   "It sounds like something has really upset you. Would it help to talk about what happened?",
   "Your feelings of anger are understandable. Let's work through this together.",
   "Anger often tells us that something important to us has been affected. I'm here to listen."]

/-- src/responses.py, lines 218-223. -/
def joy_responses : List String :=
  ["That's wonderful to hear! I'm so glad you're feeling positive. ✨",
   "Your happiness is contagious! What's making you feel so good today?",
   "I love hearing this! It's great that you're in a good place right now.",
   "That's amazing! Celebrating the good moments with you! 🎉"]

/-- src/responses.py, lines 224-229. -/
def neutral_responses : List String :=
  ["Thank you for sharing. I'm here to listen. How else are you feeling?",
   "I'm listening. Feel free to share whatever is on your mind.",
   "I'm here for you. What would you like to talk about?",
   "I appreciate you opening up. Tell me more about what's going on."]

/-- src/responses.py, line 232: `responses.get(emotion, responses['neutral'])`. -/
def responsesFor (emotion : String) : List String :=
  if emotion = "severe_distress" then severe_distress_responses
  else if emotion = "sadness" then sadness_responses
  else if emotion = "anxiety" then anxiety_responses
  else if emotion = "anger" then anger_responses
  else if emotion = "joy" then joy_responses
  else neutral_responses

/-- The indices the two `random.choice` calls of one `generate_response`
invocation draw (base response, supportive closing). -/
structure Draws where
  base : Nat
  closing : Nat
deriving DecidableEq

/-- `random.choice(pool)` with the draw given by index `i` mod the pool
size, total via a default for the empty pool (every pool below is
non-empty). -/
def pick (pool : List String) (i : Nat) : String := pool.getD (i % pool.length) ""

/-- src/responses.py, line 238. -/
def sadPatternNote : String :=
  "\n\nI've noticed you've been feeling down for a while. Have you considered talking to someone you trust about this?"

/-- src/responses.py, line 240. -/
def anxietyPatternNote : String :=
  "\n\nI notice anxiety has been coming up often. Would it help to explore some coping strategies together?"

/-- src/responses.py, lines 243-247: the five fixed lines appended one by
one when the risk score is at least 7, concatenated. -/
def crisisResources : String :=
  "\n\n⚠️ I'm genuinely concerned about you. Please consider reaching out for professional support:" ++
  "\n• National Suicide Prevention Lifeline: 988 (24/7)" ++
  "\n• Crisis Text Line: Text HOME to 741741" ++
  "\n• Emergency Services: 911" ++
  "\n\nYou deserve help, and these resources are here for you anytime."

/-- src/responses.py, line 249: the softer suggestion appended when the
risk score is at least 4 (but below 7). -/
def professionalHelpNote : String :=
  "\n\n💙 If you're struggling, please consider talking to a mental health professional. They can provide support tailored to your needs."

/-- src/responses.py, lines 253-257. -/
def closings : List String :=
  ["\n\nRemember: You are not alone in this. 💙",
   "\n\nI'm here with you. One step at a time. 🌟",
   "\n\nYour feelings matter, and so do you. 💙"]

/-- Python `l[-5:]`. -/
def lastSlice (n : Nat) (l : List String) : List String := l.drop (l.length - n)

/-- src/responses.py, lines 234-240: the context addendum. The Python guard
`if conversation_history and len(conversation_history) > 3` is equivalent
to `3 < length` (the empty list is falsy and has length 0); the counts are
of `'sadness'` and `'anxiety'` in the last five history entries, whatever
the current emotion. Appending nothing is modelled as the empty addendum. -/
def patternAddendum (conversation_history : List String) : String :=
  if conversation_history.length > 3 then
    if (lastSlice 5 conversation_history).count "sadness" ≥ 3 then sadPatternNote
    else if (lastSlice 5 conversation_history).count "anxiety" ≥ 3 then
      anxietyPatternNote
    else ""
  else ""

/-- src/responses.py, lines 242-249: the risk addendum (empty below 4). -/
def riskAddendum (risk_score : Int) : String :=
  if risk_score ≥ 7 then crisisResources
  else if risk_score ≥ 4 then professionalHelpNote
  else ""

/-- src/responses.py, lines 251-258: the supportive closing, drawn from
`closings` for the two high-risk emotions, empty otherwise. -/
def closingAddendum (emotion : String) (i : Nat) : String :=
  if emotion = "severe_distress" ∨ emotion = "sadness" then pick closings i else ""

/-- src/responses.py, `generate_response` (lines 174-260): a base response
drawn from the emotion's pool, then the three conditional `+=` additions in
source order (pattern note, risk addendum, closing). Each conditional
`base_response += s` is modelled as appending the corresponding addendum,
which is empty exactly when the source appends nothing. -/
def generate_response (emotion : String) (risk_score : Int)
    (conversation_history : List String) (draws : Draws) : String :=
  pick (responsesFor emotion) draws.base
    ++ patternAddendum conversation_history
    ++ riskAddendum risk_score
    ++ closingAddendum emotion draws.closing

/-! Helper lemmas about the string primitives. -/

theorem isPrefixOfB_append_self (p t : List Char) : isPrefixOfB p (p ++ t) = true := by
  induction p with
  | nil => rfl
  | cons a ps ih => simp [isPrefixOfB, ih]

theorem containsSub_of_isPrefixOfB {p t : List Char} (h : isPrefixOfB p t = true) :
    containsSub p t = true := by
  cases t with
  | nil =>
    cases p with
    | nil => rfl
    | cons a ps => simp [isPrefixOfB] at h
  | cons c cs => simp [containsSub, h]

theorem containsSub_append_left (a : List Char) {p t : List Char}
    (h : containsSub p t = true) : containsSub p (a ++ t) = true := by
  induction a with
  | nil => simpa using h
  | cons x xs ih => simp [containsSub, ih]

theorem containsSub_middle (a p b : List Char) :
    containsSub p (a ++ (p ++ b)) = true :=
  containsSub_append_left a (containsSub_of_isPrefixOfB (isPrefixOfB_append_self p b))

theorem isSuffixOfB_append (a p : List Char) : isSuffixOfB p (a ++ p) = true := by
  unfold isSuffixOfB
  rw [List.reverse_append]
  exact isPrefixOfB_append_self p.reverse a.reverse

theorem strAppend_assoc (a b c : String) : a ++ b ++ c = a ++ (b ++ c) :=
  String.ext (by simp [String.data_append])

theorem strContains_of_middle {s mid : String} (pre post : String)
    (h : s = pre ++ mid ++ post) : strContains s mid = true := by
  subst h
  unfold strContains
  simp only [String.data_append, List.append_assoc]
  exact containsSub_middle _ _ _

theorem strEndsWith_append (pre cl : String) : strEndsWith (pre ++ cl) cl = true := by
  unfold strEndsWith
  rw [String.data_append]
  exact isSuffixOfB_append _ _

theorem pick_mem (pool : List String) (i : Nat) (h : pool ≠ []) : pick pool i ∈ pool := by
  have hlen : 0 < pool.length := List.length_pos.mpr h
  have hm : i % pool.length < pool.length := Nat.mod_lt _ hlen
  unfold pick
  rw [List.getD_eq_getElem?_getD, List.getElem?_eq_getElem hm]
  exact List.getElem_mem hm

/-! Claim C1: a high-severity phrase forces a risk increment of 3,
whatever the emotion and the loaded datasets. -/

/-- C1: for every message whose lowered text contains one of the
high-risk keywords, `calculate_risk_score` returns 3, for every emotion
argument and every dataset state: the high-severity check short-circuits
the medium/emotion/dataset rules. -/
theorem calculate_risk_score_high (ds : DepressionDatasets) (text emotion : String)
    (h : high_risk_keywords.any (fun k => strContains (pyLower text) k) = true) :
    calculate_risk_score ds text emotion = 3 := by
  simp only [calculate_risk_score]
  rw [if_pos h]

/-- Witness for C1: "I want to end it all" matches a high-risk keyword and
scores 3 even with emotion "joy" and no datasets loaded. -/
theorem calculate_risk_score_high_witness :
    high_risk_keywords.any (fun k => strContains (pyLower "I want to end it all") k)
        = true ∧
    calculate_risk_score ⟨none, none⟩ "I want to end it all" "joy" = 3 :=
  ⟨by decide,
   calculate_risk_score_high ⟨none, none⟩ "I want to end it all" "joy" (by decide)⟩

/-! Claim C2: session risk accumulation. -/

theorem calculate_risk_score_nonneg (ds : DepressionDatasets) (text emotion : String) :
    0 ≤ calculate_risk_score ds text emotion := by
  simp only [calculate_risk_score]
  split_ifs <;> omega

theorem riskFold_bounds (ds : DepressionDatasets) (turns : List (String × String)) :
    ∀ r : Int, 0 ≤ r → r ≤ 10 →
      0 ≤ turns.foldl
          (fun r turn => updateRisk r (calculate_risk_score ds turn.1 turn.2)) r ∧
      turns.foldl
          (fun r turn => updateRisk r (calculate_risk_score ds turn.1 turn.2)) r ≤ 10 := by
  induction turns with
  | nil => exact fun r h0 h10 => ⟨h0, h10⟩
  | cons t ts ih =>
    intro r h0 h10
    rw [List.foldl_cons]
    have hn := calculate_risk_score_nonneg ds t.1 t.2
    exact ih _ (by unfold updateRisk; omega) (by unfold updateRisk; omega)

theorem riskFold_mono (ds : DepressionDatasets) (tail : List (String × String)) :
    ∀ r : Int, 0 ≤ r → r ≤ 10 →
      r ≤ tail.foldl
          (fun r turn => updateRisk r (calculate_risk_score ds turn.1 turn.2)) r := by
  induction tail with
  | nil => exact fun r _ _ => le_refl r
  | cons t ts ih =>
    intro r h0 h10
    rw [List.foldl_cons]
    have hn := calculate_risk_score_nonneg ds t.1 t.2
    have h1 : r ≤ updateRisk r (calculate_risk_score ds t.1 t.2) := by
      unfold updateRisk; omega
    exact le_trans h1 (ih _ (by unfold updateRisk; omega) (by unfold updateRisk; omega))

/-- C2: the cumulative session risk starts at 0, every single-turn increment
returned by `calculate_risk_score` is a non-negative integer, each turn
updates the total to `min(previous + increment, 10)`, the total always lies
in [0, 10], and it never decreases as further turns are appended. -/
theorem session_risk_invariants :
    (∀ ds text emotion, 0 ≤ calculate_risk_score ds text emotion) ∧
    (∀ ds, sessionRisk ds [] = 0) ∧
    (∀ ds turns turn, sessionRisk ds (turns ++ [turn]) =
      min (sessionRisk ds turns + calculate_risk_score ds turn.1 turn.2) 10) ∧
    (∀ ds turns, 0 ≤ sessionRisk ds turns ∧ sessionRisk ds turns ≤ 10) ∧
    (∀ ds turns tail, sessionRisk ds turns ≤ sessionRisk ds (turns ++ tail)) := by
  refine ⟨calculate_risk_score_nonneg, fun ds => rfl, ?_, ?_, ?_⟩
  · intro ds turns turn
    simp [sessionRisk, List.foldl_append, updateRisk]
  · intro ds turns
    exact riskFold_bounds ds turns 0 (le_refl 0) (by norm_num)
  · intro ds turns tail
    unfold sessionRisk
    rw [List.foldl_append]
    have hb := riskFold_bounds ds turns 0 (le_refl 0) (by norm_num)
    exact riskFold_mono ds tail _ hb.1 hb.2

/-! Claim C3: the crisis-resource block at cumulative risk at least 7. -/

/-- C3: whenever the risk score passed to `generate_response` is at least 7,
the reply contains the crisis-resource block — one fixed string for every
emotion, history and draw, hence byte-identical across all such calls — and
that block carries the 988 hotline, the 741741 text line and the 911
emergency number. -/
theorem generate_response_crisis_block (emotion : String) (risk_score : Int)
    (conversation_history : List String) (draws : Draws) (h : 7 ≤ risk_score) :
    strContains (generate_response emotion risk_score conversation_history draws)
        crisisResources = true ∧
    strContains crisisResources "988" = true ∧
    strContains crisisResources "741741" = true ∧
    strContains crisisResources "911" = true := by
  refine ⟨?_, by decide, by decide, by decide⟩
  have hr : riskAddendum risk_score = crisisResources := by
    unfold riskAddendum
    rw [if_pos h]
  unfold generate_response
  rw [hr]
  exact strContains_of_middle _ _ rfl

/-- Witness for C3 at a concrete call with risk 7. -/
theorem generate_response_crisis_block_witness :
    (7 : Int) ≤ 7 ∧
    (strContains (generate_response "neutral" 7 [] ⟨0, 0⟩) crisisResources = true ∧
      strContains crisisResources "988" = true ∧
      strContains crisisResources "741741" = true ∧
      strContains crisisResources "911" = true) :=
  ⟨by norm_num, generate_response_crisis_block "neutral" 7 [] ⟨0, 0⟩ (by norm_num)⟩

/-! Claim C10: supportive closing for sadness / severe distress. -/

/-- C10: for sadness and severe_distress the reply always ends with one of
the three fixed supportive closings, for every risk score (0 included),
every history and every draw: the closing depends on the emotion alone. -/
theorem generate_response_supportive_closing (emotion : String) (risk_score : Int)
    (conversation_history : List String) (draws : Draws)
    (h : emotion = "severe_distress" ∨ emotion = "sadness") :
    ∃ cl ∈ closings,
      strEndsWith (generate_response emotion risk_score conversation_history draws)
        cl = true := by
  refine ⟨pick closings draws.closing, pick_mem _ _ (by decide), ?_⟩
  have hc : closingAddendum emotion draws.closing = pick closings draws.closing := by
    unfold closingAddendum
    rw [if_pos h]
  unfold generate_response
  rw [hc]
  exact strEndsWith_append _ _

/-- Witness for C10: a sadness reply at risk 0 with empty history ends with
one of the closings. -/
theorem generate_response_supportive_closing_witness :
    ("sadness" = "severe_distress" ∨ "sadness" = "sadness") ∧
    ∃ cl ∈ closings, strEndsWith (generate_response "sadness" 0 [] ⟨0, 0⟩) cl = true :=
  ⟨Or.inr rfl, generate_response_supportive_closing "sadness" 0 [] ⟨0, 0⟩ (Or.inr rfl)⟩

/-! Claim C9: the pattern acknowledgment addendum. The code keys it to the
sadness / anxiety counts of the recent history, not to the current emotion. -/

/-- Counterexample to C9 as stated: with current emotion "joy" and the last
five history entries all "joy" (so the current emotion occurs five times,
at least three), the reply is exactly the drawn joy base response — no
acknowledgment-of-pattern sentence is appended, and neither of the two
pattern sentences the code owns occurs in it. -/
theorem generate_response_no_joy_pattern_note :
    3 ≤ (lastSlice 5 ["joy", "joy", "joy", "joy", "joy"]).count "joy" ∧
    generate_response "joy" 0 ["joy", "joy", "joy", "joy", "joy"] ⟨0, 0⟩ =
      "That's wonderful to hear! I'm so glad you're feeling positive. ✨" ∧
    strContains (generate_response "joy" 0 ["joy", "joy", "joy", "joy", "joy"] ⟨0, 0⟩)
        sadPatternNote = false ∧
    strContains (generate_response "joy" 0 ["joy", "joy", "joy", "joy", "joy"] ⟨0, 0⟩)
        anxietyPatternNote = false := by
  refine ⟨by decide, by decide, by decide, by decide⟩

/-- C9 as amended: the addendum is keyed to the history alone. When the
history is longer than 3 entries, a count of at least 3 of "sadness" among
the last five entries appends the fixed sadness pattern sentence, and
otherwise a count of at least 3 of "anxiety" appends the fixed anxiety
pattern sentence — whatever the current emotion and risk score. -/
theorem generate_response_pattern_note (emotion : String) (risk_score : Int)
    (conversation_history : List String) (draws : Draws)
    (hlen : 3 < conversation_history.length) :
    (3 ≤ (lastSlice 5 conversation_history).count "sadness" →
      strContains (generate_response emotion risk_score conversation_history draws)
        sadPatternNote = true) ∧
    ((lastSlice 5 conversation_history).count "sadness" < 3 →
      3 ≤ (lastSlice 5 conversation_history).count "anxiety" →
      strContains (generate_response emotion risk_score conversation_history draws)
        anxietyPatternNote = true) := by
  constructor
  · intro hsad
    have hp : patternAddendum conversation_history = sadPatternNote := by
      unfold patternAddendum
      rw [if_pos hlen, if_pos hsad]
    unfold generate_response
    rw [hp]
    exact strContains_of_middle _ _ (strAppend_assoc _ _ _)
  · intro hsad hanx
    have hp : patternAddendum conversation_history = anxietyPatternNote := by
      unfold patternAddendum
      rw [if_pos hlen, if_neg (by omega), if_pos hanx]
    unfold generate_response
    rw [hp]
    exact strContains_of_middle _ _ (strAppend_assoc _ _ _)

/-- Witness for the amended C9: four "sadness" entries of history append
the sadness pattern sentence to a reply for emotion "neutral". -/
theorem generate_response_pattern_note_witness :
    3 < (["sadness", "sadness", "sadness", "sadness"] : List String).length ∧
    3 ≤ (lastSlice 5 ["sadness", "sadness", "sadness", "sadness"]).count "sadness" ∧
    strContains
      (generate_response "neutral" 0 ["sadness", "sadness", "sadness", "sadness"] ⟨0, 0⟩)
      sadPatternNote = true :=
  ⟨by decide, by decide,
   (generate_response_pattern_note "neutral" 0
      ["sadness", "sadness", "sadness", "sadness"] ⟨0, 0⟩ (by decide)).1 (by decide)⟩

/-! Claim C5: no crisis or professional-help addendum below risk 4. The
reply is then one of finitely many concatenations base ++ pattern-note ++
closing; an exhaustive check shows none of them contains either addendum. -/

/-- Every base response any emotion can draw. -/
def allBases : List String :=
  severe_distress_responses ++ sadness_responses ++ anxiety_responses ++
    anger_responses ++ joy_responses ++ neutral_responses

/-- Every value `patternAddendum` can take. -/
def patternOpts : List String := ["", sadPatternNote, anxietyPatternNote]

/-- Every value `closingAddendum` can take. -/
def closingOpts : List String := "" :: closings

set_option maxRecDepth 20000 in
/-- Exhaustive check: no combination of base response, pattern note and
closing contains the crisis block or the professional-help note. -/
theorem no_addendum_in_combos :
    ∀ b ∈ allBases, ∀ p ∈ patternOpts, ∀ cl ∈ closingOpts,
      containsSub crisisResources.data (b.data ++ (p.data ++ cl.data)) = false ∧
      containsSub professionalHelpNote.data (b.data ++ (p.data ++ cl.data)) = false := by
  decide

theorem responsesFor_ne_nil (emotion : String) : responsesFor emotion ≠ [] := by
  unfold responsesFor
  split_ifs <;> decide

theorem responsesFor_subset (emotion : String) :
    ∀ x ∈ responsesFor emotion, x ∈ allBases := by
  intro x hx
  unfold responsesFor at hx
  unfold allBases
  split_ifs at hx <;> simp only [List.mem_append] <;> tauto

theorem patternAddendum_mem (conversation_history : List String) :
    patternAddendum conversation_history ∈ patternOpts := by
  unfold patternAddendum patternOpts
  split_ifs <;> simp

theorem closingAddendum_mem (emotion : String) (i : Nat) :
    closingAddendum emotion i ∈ closingOpts := by
  unfold closingAddendum closingOpts
  split_ifs with h
  · exact List.mem_cons_of_mem _ (pick_mem closings i (by decide))
  · exact List.mem_cons_self _ _

/-- C5: when the risk score passed to `generate_response` is below 4, the
reply contains neither the crisis-resource block nor the professional-help
suggestion, for every emotion, history and draw. -/
theorem generate_response_low_risk_clean (emotion : String) (risk_score : Int)
    (conversation_history : List String) (draws : Draws) (h : risk_score < 4) :
    strContains (generate_response emotion risk_score conversation_history draws)
        crisisResources = false ∧
    strContains (generate_response emotion risk_score conversation_history draws)
        professionalHelpNote = false := by
  have hb : pick (responsesFor emotion) draws.base ∈ allBases :=
    responsesFor_subset emotion _ (pick_mem _ _ (responsesFor_ne_nil emotion))
  have hp : patternAddendum conversation_history ∈ patternOpts :=
    patternAddendum_mem conversation_history
  have hc : closingAddendum emotion draws.closing ∈ closingOpts :=
    closingAddendum_mem emotion draws.closing
  have hr : riskAddendum risk_score = "" := by
    unfold riskAddendum
    rw [if_neg (by omega), if_neg (by omega)]
  have key := no_addendum_in_combos _ hb _ hp _ hc
  unfold generate_response strContains
  rw [hr]
  constructor
  · have := key.1
    simp only [String.data_append, List.append_assoc]
    simpa [show ("" : String).data = [] from rfl] using this
  · have := key.2
    simp only [String.data_append, List.append_assoc]
    simpa [show ("" : String).data = [] from rfl] using this

/-- Witness for C5 at risk 0, emotion "neutral", empty history. -/
theorem generate_response_low_risk_clean_witness :
    (0 : Int) < 4 ∧
    strContains (generate_response "neutral" 0 [] ⟨0, 0⟩) crisisResources = false ∧
    strContains (generate_response "neutral" 0 [] ⟨0, 0⟩) professionalHelpNote = false :=
  ⟨by norm_num,
   (generate_response_low_risk_clean "neutral" 0 [] ⟨0, 0⟩ (by norm_num)).1,
   (generate_response_low_risk_clean "neutral" 0 [] ⟨0, 0⟩ (by norm_num)).2⟩

/-! Claim C6: anti-repetition. src/responses.py keeps no recent-response
memory and performs no retry: `generate_response` is a pure function of the
inputs and the per-call random draws, so identical draws repeat the reply. -/

/-- Counterexample to C6: two consecutive invocations with identical
(emotion, risk, history) inputs and identical random draws — a possible run,
since nothing records or avoids earlier replies — produce byte-identical
replies, even though the neutral pool offers four distinct combinations. -/
theorem generate_response_repeats :
    (([⟨0, 0⟩, ⟨0, 0⟩] : List Draws).map (generate_response "neutral" 0 [])) =
      ["Thank you for sharing. I'm here to listen. How else are you feeling?",
       "Thank you for sharing. I'm here to listen. How else are you feeling?"] ∧
    generate_response "neutral" 0 [] ⟨0, 0⟩ ≠ generate_response "neutral" 0 [] ⟨1, 0⟩ := by
  refine ⟨by decide, by decide⟩

/-- C6 as amended: `generate_response` keeps no memory of previous replies
and never retries — the reply is a pure function of (emotion, risk,
history) and the draws — so any run of consecutive invocations with
identical inputs whose draws coincide yields identical replies, for every
length of the run. -/
theorem generate_response_stateless (emotion : String) (risk_score : Int)
    (conversation_history : List String) (draws : Draws) (n : Nat) :
    (List.replicate n draws).map
        (generate_response emotion risk_score conversation_history) =
      List.replicate n
        (generate_response emotion risk_score conversation_history draws) := by
  rw [List.map_replicate]

/-! Claim C4: the corpus-similarity step overrides the keyword step. -/

/-- Counterexample to C4 as stated: the text "sad" contains the sadness
lexicon keyword "sad" and the keyword step classifies it as sadness, yet
with the GoEmotions corpus holding one anger-labelled row sharing that word,
`detect_emotion` returns "anger": corpus similarity overrides the keyword
match instead of running only without one. -/
theorem detect_emotion_keyword_overridden :
    strContains (pyLower "sad") "sad" = true ∧
    (detect_emotion_rule_based "sad").emotion = "sadness" ∧
    (detect_emotion .noApiKey (some [("sad", "anger")]) "sad").emotion = "anger" := by
  refine ⟨by decide, by decide, by decide⟩

theorem bumpCount_ne_nil (counts : List (String × Nat)) (k : String) (v : Nat) :
    bumpCount counts k v ≠ [] := by
  unfold bumpCount
  split_ifs with h
  · cases counts with
    | nil => simp at h
    | cons c cs => simp
  · simp

theorem foldl_bumpCount_ne_nil (entries : List (String × Nat)) :
    ∀ init : List (String × Nat), entries ≠ [] ∨ init ≠ [] →
      entries.foldl (fun cs e => bumpCount cs e.1 e.2) init ≠ [] := by
  induction entries with
  | nil =>
    intro init h
    exact h.resolve_left (by simp)
  | cons e es ih =>
    intro init _
    rw [List.foldl_cons]
    exact ih _ (Or.inr (bumpCount_ne_nil init e.1 e.2))

theorem maxByCount_isSome {l : List (String × Nat)} (h : l ≠ []) :
    ∃ b, maxByCount l = some b := by
  cases l with
  | nil => exact absurd rfl h
  | cons x xs => exact ⟨_, rfl⟩

/-- C4 as amended: keyword matching is only the fallback for a failed
remote call, and its label is not final: whenever the loaded corpus has a
row among its first 1000 sharing at least one word with the text, the
overlap-weighted majority label of the corpus replaces the label of the
earlier steps — the final emotion is then independent of what the keyword
step produced, so similarity takes precedence over keywords rather than
running only without a decisive keyword match. -/
theorem detect_emotion_similarity_overrides (call : HFCall)
    (rows : List (String × String)) (text : String)
    (h : ∃ r ∈ rows.take 1000, 0 < overlapCount (wordSet text) (wordSet r.1)) :
    (detect_emotion call (some rows) text).emotion =
      (map_emotion_with_dataset (some rows) text "").emotion := by
  obtain ⟨r, hr, hov⟩ := h
  have hmem : (r.2, overlapCount (wordSet text) (wordSet r.1)) ∈ similarEntries rows text := by
    unfold similarEntries
    refine List.mem_filter.mpr ⟨List.mem_map_of_mem _ hr, by simpa using hov⟩
  have hne : similarEntries rows text ≠ [] := List.ne_nil_of_mem hmem
  have hcts : (similarEntries rows text).foldl (fun cs e => bumpCount cs e.1 e.2) [] ≠ [] :=
    foldl_bumpCount_ne_nil _ _ (Or.inl hne)
  obtain ⟨best, hbest⟩ := maxByCount_isSome hcts
  have key : ∀ det, map_emotion_with_dataset (some rows) text det = ⟨best.1, true⟩ := by
    intro det
    simp only [map_emotion_with_dataset, hbest]
  simp only [detect_emotion, key]
  simp

/-- Witness for the amended C4 at the counterexample's input. -/
theorem detect_emotion_similarity_overrides_witness :
    (∃ r ∈ ([("sad", "anger")] : List (String × String)).take 1000,
      0 < overlapCount (wordSet "sad") (wordSet r.1)) ∧
    (detect_emotion .noApiKey (some [("sad", "anger")]) "sad").emotion =
      (map_emotion_with_dataset (some [("sad", "anger")]) "sad" "").emotion :=
  ⟨by decide,
   detect_emotion_similarity_overrides .noApiKey [("sad", "anger")] "sad" (by decide)⟩

/-! Claim C7: the keyword classifier's confidence. The code computes
`min(max_score / max(total_words * 0.3, 1), 0.95)`, which varies with the
text, rather than a fixed 0.85. -/

/-- Counterexample to C7 as stated: both texts contain the sadness keyword
"sad", yet the one-word text gets confidence 0.95 and the ten-word text
gets 1/3 — the confidence is neither the claimed fixed 0.85 nor independent
of the text beyond the fact of a match. -/
theorem rule_based_confidence_varies :
    strContains (pyLower "sad") "sad" = true ∧
    strContains (pyLower "today i am very extremely sad about all of it") "sad" = true ∧
    (detect_emotion_rule_based "sad").confidence = 19/20 ∧
    (detect_emotion_rule_based "today i am very extremely sad about all of it").confidence
        = 1/3 ∧
    (19 : Rat)/20 ≠ 85/100 ∧
    (1 : Rat)/3 ≠ 85/100 := by
  have hb1 : maxByCount (emotionScores (pyLower "sad")) = some ("sadness", 1) := by
    decide
  have hw1 : pySplit (pyLower "sad") = ["sad"] := by decide
  have hb2 : maxByCount
      (emotionScores (pyLower "today i am very extremely sad about all of it")) =
        some ("sadness", 1) := by decide
  have hw2 : (pySplit (pyLower "today i am very extremely sad about all of it")).length
      = 10 := by decide
  refine ⟨by decide, by decide, ?_, ?_, by norm_num, by norm_num⟩
  · simp only [detect_emotion_rule_based, hb1, hw1, List.length_cons, List.length_nil]
    norm_num [min_def, max_def]
  · simp only [detect_emotion_rule_based, hb2, hw2]
    norm_num [min_def, max_def]

theorem foldl_maxBy_mem (xs : List (String × Nat)) :
    ∀ x : String × Nat,
      xs.foldl (fun best y => if y.2 > best.2 then y else best) x ∈ x :: xs := by
  induction xs with
  | nil => intro x; simp
  | cons y ys ih =>
    intro x
    rw [List.foldl_cons]
    rcases List.mem_cons.mp (ih (if y.2 > x.2 then y else x)) with h | h
    · rw [h]
      split_ifs
      · exact List.mem_cons_of_mem _ (List.mem_cons_self _ _)
      · exact List.mem_cons_self _ _
    · exact List.mem_cons_of_mem _ (List.mem_cons_of_mem _ h)

theorem maxByCount_mem {l : List (String × Nat)} {b : String × Nat}
    (h : maxByCount l = some b) : b ∈ l := by
  cases l with
  | nil => simp [maxByCount] at h
  | cons x xs =>
    simp only [maxByCount, Option.some.injEq] at h
    rw [← h]
    exact foldl_maxBy_mem xs x

/-- C7 as amended: when some lexicon keyword occurs in the lowered text,
the rule-based classifier returns a category one of whose keywords occurs,
with method "rule_based", and its confidence is
`min(max_score / max(total_words * 0.3, 1), 0.95)` for the top score
`max_score` and the word count of the text — a value capped at 0.95 and
depending on the text's length and match count, not a fixed 0.85. -/
theorem rule_based_keyword_result (text : String)
    (h : emotionScores (pyLower text) ≠ []) :
    (detect_emotion_rule_based text).method = "rule_based" ∧
    (∃ kws, ((detect_emotion_rule_based text).emotion, kws) ∈ emotion_keywords ∧
      kws.any (fun k => strContains (pyLower text) k) = true) ∧
    (detect_emotion_rule_based text).confidence ≤ 95/100 ∧
    (∀ b, maxByCount (emotionScores (pyLower text)) = some b →
      (detect_emotion_rule_based text).confidence =
        min ((b.2 : Rat) / max (((pySplit (pyLower text)).length : Rat) * (3/10)) 1)
          (95/100)) := by
  obtain ⟨b, hb⟩ := maxByCount_isSome h
  have hmem : b ∈ emotionScores (pyLower text) := maxByCount_mem hb
  have hres : detect_emotion_rule_based text =
      ⟨b.1, min ((b.2 : Rat) / max (((pySplit (pyLower text)).length : Rat) * (3/10)) 1)
        (95/100), "rule_based"⟩ := by
    simp only [detect_emotion_rule_based, hb]
  obtain ⟨hmap, hpos⟩ := List.mem_filter.mp hmem
  obtain ⟨p, hp, hpb⟩ := List.mem_map.mp hmap
  refine ⟨by rw [hres], ⟨p.2, ?_, ?_⟩, by rw [hres]; exact min_le_right _ _, ?_⟩
  · rw [hres]
    simpa [← hpb] using hp
  · have hlen : 0 < (p.2.filter (fun k => strContains (pyLower text) k)).length := by
      have : (0 < b.2) := by simpa using hpos
      rw [← hpb] at this
      simpa using this
    obtain ⟨k, hk⟩ := List.exists_mem_of_length_pos hlen
    obtain ⟨hkmem, hkc⟩ := List.mem_filter.mp hk
    exact List.any_eq_true.mpr ⟨k, hkmem, hkc⟩
  · intro b' hb'
    rw [hb] at hb'
    injection hb' with hbb
    rw [hres, ← hbb]

/-- Witness for the amended C7 at the one-word text "sad". -/
theorem rule_based_keyword_result_witness :
    emotionScores (pyLower "sad") ≠ [] ∧
    ((detect_emotion_rule_based "sad").method = "rule_based" ∧
      (∃ kws, ((detect_emotion_rule_based "sad").emotion, kws) ∈ emotion_keywords ∧
        kws.any (fun k => strContains (pyLower "sad") k) = true) ∧
      (detect_emotion_rule_based "sad").confidence ≤ 95/100 ∧
      (∀ b, maxByCount (emotionScores (pyLower "sad")) = some b →
        (detect_emotion_rule_based "sad").confidence =
          min ((b.2 : Rat) / max (((pySplit (pyLower "sad")).length : Rat) * (3/10)) 1)
            (95/100))) :=
  ⟨by decide, rule_based_keyword_result "sad" (by decide)⟩

/-! Claim C8: degradation is total and silent. Every failure mode of the
remote call yields `none` and `detect_emotion` falls back to the rule-based
classifier; with the corpus also missing the rule-based result is returned
unchanged. The embedding is a total function: no execution path raises. -/

theorem rule_based_method (text : String) :
    (detect_emotion_rule_based text).method = "rule_based" := by
  cases hb : maxByCount (emotionScores (pyLower text)) <;>
    simp [detect_emotion_rule_based, hb]

/-- C8: every remote failure mode — missing credential, raised request
exception (timeout and friends), non-200 status, empty result array,
malformed first entry — makes `detect_emotion_huggingface` return `none`;
`detect_emotion` then still returns a classification result, namely the
rule-based fallback (enhanced or not), and with the corpus file also absent
it is exactly the rule-based result, whose method tag is "rule_based". The
embedding of `detect_emotion` is a total function, so no such failure
escapes to the caller. -/
theorem detect_emotion_failure_fallback :
    detect_emotion_huggingface .noApiKey = none ∧
    detect_emotion_huggingface .requestFailure = none ∧
    (∀ code body, code ≠ 200 → detect_emotion_huggingface (.httpStatus code body) = none) ∧
    (∀ code, detect_emotion_huggingface (.httpStatus code []) = none) ∧
    (∀ code rest, detect_emotion_huggingface (.httpStatus code ([] :: rest)) = none) ∧
    (∀ call text, detect_emotion_huggingface call = none →
      detect_emotion call none text = detect_emotion_rule_based text) ∧
    (∀ call text, detect_emotion_huggingface call = none →
      (detect_emotion call none text).method = "rule_based") := by
  refine ⟨rfl, rfl, ?_, ?_, ?_, ?_, ?_⟩
  · intro code body hc
    simp [detect_emotion_huggingface, hc]
  · intro code
    simp only [detect_emotion_huggingface]
    split_ifs <;> rfl
  · intro code rest
    simp only [detect_emotion_huggingface, maxByScore]
    split_ifs <;> rfl
  · intro call text hnone
    simp [detect_emotion, hnone]
  · intro call text hnone
    simp [detect_emotion, hnone, rule_based_method]

/-- Witness for C8: a 500 status and a missing credential both fall back;
`detect_emotion` returns the rule-based result for "hello". -/
theorem detect_emotion_failure_fallback_witness :
    (500 : Nat) ≠ 200 ∧
    detect_emotion_huggingface (.httpStatus 500 []) = none ∧
    detect_emotion_huggingface .noApiKey = none ∧
    detect_emotion .noApiKey none "hello" = detect_emotion_rule_based "hello" :=
  ⟨by decide,
   detect_emotion_failure_fallback.2.2.1 500 [] (by decide),
   detect_emotion_failure_fallback.1,
   detect_emotion_failure_fallback.2.2.2.2.2.1 .noApiKey "hello" rfl⟩

end Mindmate

